import Mathlib

/-!
# PhilanChain Crowdfunding contract: shallow embedding and verification

This file embeds the Solidity contract `Crowdfunding` (src/PhilanChain.sol)
into Lean and proves the specified invariants and functional properties.

Modelling conventions:
* Addresses and amounts are `Nat` (the spec's data model declares amounts as
  unsigned arbitrary-precision integers).
* The `donations` mapping is an association list; `lookupAmt` reads the first
  binding (0 if absent), `setAmt` overwrites the first binding in place.
* `hasVoted` is the set of recorded `(milestoneId, donor)` pairs, as a list;
  entries are only ever prepended, never removed.
* Each external function takes the current `block.timestamp` as `now` and the
  caller as `sender`, and returns `Except Err State`: `.error e` models a
  revert (the pre-call state is preserved by construction, so the atomic
  rollback contract is built into the embedding), `.ok s` the committed state.
* External value transfers (`call{value: ...}`) are modelled by a boolean
  `transferOk` input: `false` makes the low-level call fail, which the
  contract turns into a `TransferFailed` revert.
* `address(this).balance` is tracked as the `balance` field: `receive()`
  reverts, so ether enters only through `donate` and leaves only through
  `withdraw`, `refund` and `releaseMilestoneFunds`.
* `1 days` is 86400 seconds.
* Error names are the contract's own; the spec renames some of them
  (`CampaignClosed` = `FundraisingClosed`, `ZeroAmount` = `InvalidDonationAmount`,
  `AlreadyReleased` = `FundsAlreadyReleased`, `RefundUnavailable` =
  `RefundNotAvailable`, `NothingToRefund` = `NoDonationToRefund`,
  `NothingToWithdraw` = `NoFundsToWithdraw`, `InvalidAmount` =
  `InvalidMilestoneAmount`, `InvalidDuration` = the `InvalidMilestone` error
  the contract raises for a zero voting duration).
-/

namespace PhilanChain

abbrev Address := Nat

/-- Read a donor's balance from the `donations` association list (0 if absent). -/
def lookupAmt : List (Address × Nat) → Address → Nat
  | [], _ => 0
  | (k', v') :: rest, k => if k' = k then v' else lookupAmt rest k

/-- Overwrite (or create) a donor's balance in the `donations` association list. -/
def setAmt : List (Address × Nat) → Address → Nat → List (Address × Nat)
  | [], k, v => [(k, v)]
  | (k', v') :: rest, k, v =>
      if k' = k then (k, v) :: rest else (k', v') :: setAmt rest k v

/-- Sum of all entries of the donor-balance map. -/
def sumAmt (m : List (Address × Nat)) : Nat := (m.map Prod.snd).sum

/-- The `Milestone` struct of the contract. -/
structure Milestone where
  description : String
  fundAmount : Nat
  voteDeadline : Nat
  yesVotes : Nat
  noVotes : Nat
  approved : Bool
  fundsReleased : Bool
  votingActive : Bool
deriving DecidableEq

/-- Placeholder milestone used as the default for out-of-range reads
(every read in the operations is guarded by a bounds check first). -/
def dummyMilestone : Milestone :=
  { description := "", fundAmount := 0, voteDeadline := 0, yesVotes := 0,
    noVotes := 0, approved := false, fundsReleased := false, votingActive := false }

/-- `milestones[i]`: read a milestone from the list (placeholder if out of
range; every use in the operations is behind a bounds check). -/
def mileAt (l : List Milestone) (i : Nat) : Milestone :=
  l.getD i dummyMilestone

/-- The `CampaignUpdate` struct of the contract. -/
structure CampaignUpdate where
  title : String
  contentHash : String
  timestamp : Nat
deriving DecidableEq

/-- The contract's custom errors (names as in the source). -/
inductive Err where
  | UseDonateFunction
  | NotOwner
  | FundraisingClosed
  | InvalidDonationAmount
  | NoFundsToWithdraw
  | TransferFailed
  | RefundNotAvailable
  | NoDonationToRefund
  | WithdrawalNotAvailable
  | InvalidMilestone
  | InsufficientContractBalance
  | VotingNotActive
  | VotingPeriodNotEnded
  | AlreadyVoted
  | OnlyDonorsCanVote
  | MilestoneNotApproved
  | FundsAlreadyReleased
  | InvalidMilestoneAmount
  | EmptyDescription
  | VotingStillActive
deriving DecidableEq

/-- The full storage of the contract, together with the tracked native
balance (`balance`) and the timestamp of the last committed call (`time`). -/
structure State where
  owner : Address
  fundraisingGoal : Nat
  deadline : Nat
  totalDonations : Nat
  campaignActive : Bool
  donations : List (Address × Nat)
  milestones : List Milestone
  updates : List CampaignUpdate
  hasVoted : List (Nat × Address)
  balance : Nat
  time : Nat
deriving DecidableEq

/-- The constructor: requires a positive goal and duration, sets
`deadline = now + durationDays * 1 days`, owner = deployer. -/
def deploy (now : Nat) (sender : Address) (goal durationDays : Nat) : Option State :=
  if goal = 0 then none
  else if durationDays = 0 then none
  else some
    { owner := sender, fundraisingGoal := goal,
      deadline := now + durationDays * 86400,
      totalDonations := 0, campaignActive := true,
      donations := [], milestones := [], updates := [], hasVoted := [],
      balance := 0, time := now }

/-- `donate()`: payable; reverts `FundraisingClosed` at/after the deadline and
`InvalidDonationAmount` on zero value; otherwise credits the sender. -/
def donate (s : State) (now : Nat) (sender : Address) (value : Nat) : Except Err State :=
  if now ≥ s.deadline then .error .FundraisingClosed
  else if value = 0 then .error .InvalidDonationAmount
  else .ok { s with
    donations := setAmt s.donations sender (lookupAmt s.donations sender + value),
    totalDonations := s.totalDonations + value,
    balance := s.balance + value,
    time := now }

/-- `createMilestone(description, fundAmount, votingDurationDays)`: owner-only;
appends a fresh milestone in the voting phase. -/
def createMilestone (s : State) (now : Nat) (sender : Address)
    (description : String) (fundAmount votingDurationDays : Nat) : Except Err State :=
  if sender ≠ s.owner then .error .NotOwner
  else if description.length = 0 then .error .EmptyDescription
  else if fundAmount = 0 ∨ fundAmount > s.balance then .error .InvalidMilestoneAmount
  else if votingDurationDays = 0 then .error .InvalidMilestone
  else .ok { s with
    milestones := s.milestones ++
      [{ description := description, fundAmount := fundAmount,
         voteDeadline := now + votingDurationDays * 86400,
         yesVotes := 0, noVotes := 0,
         approved := false, fundsReleased := false, votingActive := true }],
    time := now }

/-- `voteOnMilestone(milestoneId, approve)`: donor-only, once per donor per
milestone, weighted by the donor's current balance. -/
def voteOnMilestone (s : State) (now : Nat) (sender : Address)
    (milestoneId : Nat) (approve : Bool) : Except Err State :=
  if lookupAmt s.donations sender = 0 then .error .OnlyDonorsCanVote
  else if milestoneId ≥ s.milestones.length then .error .InvalidMilestone
  else
    let milestone := mileAt s.milestones milestoneId
    if milestone.votingActive = false then .error .VotingNotActive
    else if now > milestone.voteDeadline then .error .VotingNotActive
    else if (milestoneId, sender) ∈ s.hasVoted then .error .AlreadyVoted
    else
      let voteWeight := lookupAmt s.donations sender
      let milestone' :=
        if approve then { milestone with yesVotes := milestone.yesVotes + voteWeight }
        else { milestone with noVotes := milestone.noVotes + voteWeight }
      .ok { s with
        milestones := s.milestones.set milestoneId milestone',
        hasVoted := (milestoneId, sender) :: s.hasVoted,
        time := now }

/-- `finalizeMilestoneVote(milestoneId)`: callable by anyone after the vote
deadline; closes voting and approves iff the yes weight strictly exceeds the
no weight (with nonzero turnout). -/
def finalizeMilestoneVote (s : State) (now : Nat) (milestoneId : Nat) : Except Err State :=
  if milestoneId ≥ s.milestones.length then .error .InvalidMilestone
  else
    let milestone := mileAt s.milestones milestoneId
    if milestone.votingActive = false then .error .VotingNotActive
    else if now ≤ milestone.voteDeadline then .error .VotingStillActive
    else
      let m1 := { milestone with votingActive := false }
      let m2 :=
        if 0 < milestone.yesVotes + milestone.noVotes ∧ milestone.noVotes < milestone.yesVotes
        then { m1 with approved := true } else m1
      .ok { s with milestones := s.milestones.set milestoneId m2, time := now }

/-- `releaseMilestoneFunds(milestoneId)`: owner-only; one-time transfer of an
approved milestone's `fundAmount` to the owner. -/
def releaseMilestoneFunds (s : State) (now : Nat) (sender : Address)
    (milestoneId : Nat) (transferOk : Bool) : Except Err State :=
  if sender ≠ s.owner then .error .NotOwner
  else if milestoneId ≥ s.milestones.length then .error .InvalidMilestone
  else
    let milestone := mileAt s.milestones milestoneId
    if milestone.approved = false then .error .MilestoneNotApproved
    else if milestone.fundsReleased then .error .FundsAlreadyReleased
    else if s.balance < milestone.fundAmount then .error .InsufficientContractBalance
    else if transferOk = false then .error .TransferFailed
    else .ok { s with
      milestones := s.milestones.set milestoneId { milestone with fundsReleased := true },
      balance := s.balance - milestone.fundAmount,
      time := now }

/-- `postUpdate(title, contentHash)`: owner-only append to the update log. -/
def postUpdate (s : State) (now : Nat) (sender : Address)
    (title contentHash : String) : Except Err State :=
  if sender ≠ s.owner then .error .NotOwner
  else if title.length = 0 then .error .EmptyDescription
  else .ok { s with
    updates := s.updates ++ [{ title := title, contentHash := contentHash, timestamp := now }],
    time := now }

/-- `withdraw()`: owner-only; after the deadline or once the goal is met,
transfers the entire held balance to the owner. -/
def withdraw (s : State) (now : Nat) (sender : Address) (transferOk : Bool) : Except Err State :=
  if sender ≠ s.owner then .error .NotOwner
  else if ¬ (now ≥ s.deadline ∨ s.totalDonations ≥ s.fundraisingGoal) then
    .error .WithdrawalNotAvailable
  else if s.balance = 0 then .error .NoFundsToWithdraw
  else if transferOk = false then .error .TransferFailed
  else .ok { s with balance := 0, time := now }

/-- `refund()`: after the deadline with the goal unmet, returns the caller's
full recorded donation and zeroes it. -/
def refund (s : State) (now : Nat) (sender : Address) (transferOk : Bool) : Except Err State :=
  if ¬ (now ≥ s.deadline ∧ s.totalDonations < s.fundraisingGoal) then
    .error .RefundNotAvailable
  else
    let amount := lookupAmt s.donations sender
    if amount = 0 then .error .NoDonationToRefund
    else if transferOk = false then .error .TransferFailed
    else .ok { s with
      donations := setAmt s.donations sender 0,
      totalDonations := s.totalDonations - amount,
      balance := s.balance - amount,
      time := now }

/-- `endCampaign()`: owner-only advisory flag flip. -/
def endCampaign (s : State) (now : Nat) (sender : Address) : Except Err State :=
  if sender ≠ s.owner then .error .NotOwner
  else .ok { s with campaignActive := false, time := now }

/-- `progressPercentage()` view. -/
def progressPercentage (s : State) : Nat :=
  if s.fundraisingGoal = 0 then 0 else s.totalDonations * 100 / s.fundraisingGoal

/-- `timeRemaining()` view. -/
def timeRemaining (s : State) (now : Nat) : Nat :=
  if now < s.deadline then s.deadline - now else 0

/-- One state-changing request to the contract (caller and arguments). -/
inductive Op where
  | donate (sender : Address) (value : Nat)
  | createMilestone (sender : Address) (description : String)
      (fundAmount votingDurationDays : Nat)
  | voteOnMilestone (sender : Address) (milestoneId : Nat) (approve : Bool)
  | finalizeMilestoneVote (sender : Address) (milestoneId : Nat)
  | releaseMilestoneFunds (sender : Address) (milestoneId : Nat) (transferOk : Bool)
  | postUpdate (sender : Address) (title contentHash : String)
  | withdraw (sender : Address) (transferOk : Bool)
  | refund (sender : Address) (transferOk : Bool)
  | endCampaign (sender : Address)
deriving DecidableEq

/-- Dispatch one request against the current state at timestamp `now`. -/
def execute (s : State) (now : Nat) : Op → Except Err State
  | .donate sender value => donate s now sender value
  | .createMilestone sender d fa vd => createMilestone s now sender d fa vd
  | .voteOnMilestone sender i a => voteOnMilestone s now sender i a
  | .finalizeMilestoneVote _ i => finalizeMilestoneVote s now i
  | .releaseMilestoneFunds sender i ok => releaseMilestoneFunds s now sender i ok
  | .postUpdate sender t c => postUpdate s now sender t c
  | .withdraw sender ok => withdraw s now sender ok
  | .refund sender ok => refund s now sender ok
  | .endCampaign sender => endCampaign s now sender

/-- Reachable contract states: a deployment followed by any sequence of
successfully committed calls, with non-decreasing block timestamps
(reverted calls leave the state unchanged, so they need no transition). -/
inductive Reachable : State → Prop where
  | deployed (now : Nat) (sender : Address) (goal durationDays : Nat) (s : State) :
      deploy now sender goal durationDays = some s → Reachable s
  | step (s : State) (now : Nat) (op : Op) (s' : State) :
      Reachable s → s.time ≤ now → execute s now op = .ok s' → Reachable s'

/-! ## Concrete sample run (used to witness the theorems below)

Deployment with goal 10 and a 1-day deadline, a donation of 10 from donor 7,
a milestone of 3 with a 1-day vote, a yes vote, finalization, and release. -/

/-- `deploy 0 0 10 1`. -/
def sample0 : State :=
  { owner := 0, fundraisingGoal := 10, deadline := 86400, totalDonations := 0,
    campaignActive := true, donations := [], milestones := [], updates := [],
    hasVoted := [], balance := 0, time := 0 }

/-- After `donate` of 10 by donor 7 at time 1. -/
def sample1 : State :=
  { sample0 with donations := [(7, 10)], totalDonations := 10, balance := 10, time := 1 }

/-- After a `withdraw` from `sample1` at time 5 (goal met early). -/
def sample1w : State :=
  { sample1 with balance := 0, time := 5 }

/-- After `createMilestone "m" 3 1` by the owner at time 2. -/
def sample2 : State :=
  { sample1 with
    milestones := [{ description := "m", fundAmount := 3, voteDeadline := 86402,
                     yesVotes := 0, noVotes := 0, approved := false,
                     fundsReleased := false, votingActive := true }],
    time := 2 }

/-- After a yes `voteOnMilestone` by donor 7 at time 3 (weight 10). -/
def sample3 : State :=
  { sample2 with
    milestones := [{ description := "m", fundAmount := 3, voteDeadline := 86402,
                     yesVotes := 10, noVotes := 0, approved := false,
                     fundsReleased := false, votingActive := true }],
    hasVoted := [(0, 7)],
    time := 3 }

/-- After `finalizeMilestoneVote` at time 86403 (past the vote deadline). -/
def sample4 : State :=
  { sample3 with
    milestones := [{ description := "m", fundAmount := 3, voteDeadline := 86402,
                     yesVotes := 10, noVotes := 0, approved := true,
                     fundsReleased := false, votingActive := false }],
    time := 86403 }

/-- After `releaseMilestoneFunds` by the owner at time 86404. -/
def sample5 : State :=
  { sample4 with
    milestones := [{ description := "m", fundAmount := 3, voteDeadline := 86402,
                     yesVotes := 10, noVotes := 0, approved := true,
                     fundsReleased := true, votingActive := false }],
    balance := 7,
    time := 86404 }

/-- After `postUpdate "t" "c"` by the owner at time 86405. -/
def sample6 : State :=
  { sample5 with
    updates := [{ title := "t", contentHash := "c", timestamp := 86405 }],
    time := 86405 }

/-- A second run with goal 100: the goal is missed, so refunds open up. -/
def sampleR0 : State :=
  { owner := 0, fundraisingGoal := 100, deadline := 86400, totalDonations := 0,
    campaignActive := true, donations := [], milestones := [], updates := [],
    hasVoted := [], balance := 0, time := 0 }

/-- After `donate` of 10 by donor 7 at time 1 (goal 100 unmet). -/
def sampleR1 : State :=
  { sampleR0 with donations := [(7, 10)], totalDonations := 10, balance := 10, time := 1 }

/-! ## Basic lemmas about the donor-balance association list -/

theorem lookupAmt_setAmt_self (m : List (Address × Nat)) (k : Address) (v : Nat) :
    lookupAmt (setAmt m k v) k = v := by
  induction m with
  | nil => simp [setAmt, lookupAmt]
  | cons p rest ih =>
    obtain ⟨k', v'⟩ := p
    by_cases h : k' = k <;> simp [setAmt, lookupAmt, h, ih]

theorem lookupAmt_setAmt_ne (m : List (Address × Nat)) (k k' : Address) (v : Nat)
    (h : k ≠ k') : lookupAmt (setAmt m k v) k' = lookupAmt m k' := by
  induction m with
  | nil => simp [setAmt, lookupAmt, h]
  | cons p rest ih =>
    obtain ⟨a, b⟩ := p
    by_cases ha : a = k
    · subst ha
      simp [setAmt, lookupAmt, h]
    · simp [setAmt, lookupAmt, ha, ih]

/-- Overwriting the first binding of `k` changes the total by the difference
between the new value and the first binding's old value. -/
theorem sumAmt_setAmt (m : List (Address × Nat)) (k : Address) (v : Nat) :
    sumAmt (setAmt m k v) + lookupAmt m k = sumAmt m + v := by
  induction m with
  | nil => simp [setAmt, lookupAmt, sumAmt]
  | cons p rest ih =>
    obtain ⟨a, b⟩ := p
    by_cases ha : a = k
    · subst ha
      simp [setAmt, lookupAmt, sumAmt]
      omega
    · simp only [setAmt, lookupAmt, ha, if_false, ite_false, sumAmt, List.map_cons,
        List.sum_cons]
      simp only [sumAmt] at ih
      omega

theorem lookupAmt_le_sumAmt (m : List (Address × Nat)) (k : Address) :
    lookupAmt m k ≤ sumAmt m := by
  induction m with
  | nil => simp [lookupAmt, sumAmt]
  | cons p rest ih =>
    obtain ⟨a, b⟩ := p
    by_cases ha : a = k
    · subst ha
      simp [lookupAmt, sumAmt]
    · simp only [lookupAmt, ha, if_false, ite_false, sumAmt, List.map_cons, List.sum_cons]
      simp only [sumAmt] at ih
      omega

/-! ## Inversion lemmas: exact success conditions and effects of each call -/

theorem donate_ok_iff (s : State) (now : Nat) (sender : Address) (value : Nat)
    (s' : State) :
    donate s now sender value = .ok s' ↔
      now < s.deadline ∧ value ≠ 0 ∧
      s' = { s with
        donations := setAmt s.donations sender (lookupAmt s.donations sender + value),
        totalDonations := s.totalDonations + value,
        balance := s.balance + value,
        time := now } := by
  unfold donate
  split
  · next h => simp; omega
  · split
    · next h => simp_all
    · next h1 h2 =>
      constructor
      · intro h; cases h; exact ⟨by omega, h2, rfl⟩
      · rintro ⟨-, -, rfl⟩; rfl

theorem createMilestone_ok_iff (s : State) (now : Nat) (sender : Address)
    (description : String) (fundAmount votingDurationDays : Nat) (s' : State) :
    createMilestone s now sender description fundAmount votingDurationDays = .ok s' ↔
      sender = s.owner ∧ description.length ≠ 0 ∧
      fundAmount ≠ 0 ∧ fundAmount ≤ s.balance ∧ votingDurationDays ≠ 0 ∧
      s' = { s with
        milestones := s.milestones ++
          [{ description := description, fundAmount := fundAmount,
             voteDeadline := now + votingDurationDays * 86400,
             yesVotes := 0, noVotes := 0,
             approved := false, fundsReleased := false, votingActive := true }],
        time := now } := by
  unfold createMilestone
  split
  · next h => simp_all
  · split
    · next h => simp_all
    · split
      · next h => simp; omega
      · split
        · next h => simp_all
        · next h1 h2 h3 h4 =>
          constructor
          · intro h; cases h
            refine ⟨by tauto, h2, ?_, ?_, h4, rfl⟩ <;> omega
          · rintro ⟨-, -, -, -, -, rfl⟩; rfl

theorem voteOnMilestone_ok_iff (s : State) (now : Nat) (sender : Address)
    (milestoneId : Nat) (approve : Bool) (s' : State) :
    voteOnMilestone s now sender milestoneId approve = .ok s' ↔
      lookupAmt s.donations sender ≠ 0 ∧ milestoneId < s.milestones.length ∧
      (mileAt s.milestones milestoneId).votingActive = true ∧
      now ≤ (mileAt s.milestones milestoneId).voteDeadline ∧
      (milestoneId, sender) ∉ s.hasVoted ∧
      s' = { s with
        milestones := s.milestones.set milestoneId
          (if approve then
            { mileAt s.milestones milestoneId with
              yesVotes := (mileAt s.milestones milestoneId).yesVotes +
                lookupAmt s.donations sender }
           else
            { mileAt s.milestones milestoneId with
              noVotes := (mileAt s.milestones milestoneId).noVotes +
                lookupAmt s.donations sender }),
        hasVoted := (milestoneId, sender) :: s.hasVoted,
        time := now } := by
  constructor
  · intro h
    by_cases h1 : lookupAmt s.donations sender = 0
    · simp [voteOnMilestone, h1] at h
    · by_cases h2 : milestoneId ≥ s.milestones.length
      · simp [voteOnMilestone, h1, h2] at h
      · by_cases h3 : (mileAt s.milestones milestoneId).votingActive = false
        · simp [voteOnMilestone, h1, h2, h3] at h
        · by_cases h4 : now > (mileAt s.milestones milestoneId).voteDeadline
          · simp [voteOnMilestone, h1, h2, h3, h4] at h
          · by_cases h5 : (milestoneId, sender) ∈ s.hasVoted
            · simp [voteOnMilestone, h1, h2, h3, h4, h5] at h
            · refine ⟨h1, by omega, by simpa using h3, by omega, h5, ?_⟩
              simp only [voteOnMilestone, h1, h2, h3, h4, h5, if_neg, if_false,
                ite_false, Except.ok.injEq] at h
              simp_all
  · rintro ⟨h1, h2, h3, h4, h5, rfl⟩
    have h2' : ¬ milestoneId ≥ s.milestones.length := by omega
    have h4' : ¬ now > (mileAt s.milestones milestoneId).voteDeadline := by
      omega
    simp [voteOnMilestone, h1, h2', h3, h4', h5]

theorem finalizeMilestoneVote_ok_iff (s : State) (now : Nat) (milestoneId : Nat)
    (s' : State) :
    finalizeMilestoneVote s now milestoneId = .ok s' ↔
      milestoneId < s.milestones.length ∧
      (mileAt s.milestones milestoneId).votingActive = true ∧
      (mileAt s.milestones milestoneId).voteDeadline < now ∧
      s' = { s with
        milestones := s.milestones.set milestoneId
          (if 0 < (mileAt s.milestones milestoneId).yesVotes +
                (mileAt s.milestones milestoneId).noVotes ∧
              (mileAt s.milestones milestoneId).noVotes <
                (mileAt s.milestones milestoneId).yesVotes
           then { mileAt s.milestones milestoneId with
                  votingActive := false, approved := true }
           else { mileAt s.milestones milestoneId with
                  votingActive := false }),
        time := now } := by
  constructor
  · intro h
    by_cases h1 : milestoneId ≥ s.milestones.length
    · simp [finalizeMilestoneVote, h1] at h
    · by_cases h2 : (mileAt s.milestones milestoneId).votingActive = false
      · simp [finalizeMilestoneVote, h1, h2] at h
      · by_cases h3 : now ≤ (mileAt s.milestones milestoneId).voteDeadline
        · simp [finalizeMilestoneVote, h1, h2, h3] at h
        · refine ⟨by omega, by simpa using h2, by omega, ?_⟩
          simp only [finalizeMilestoneVote, h1, h2, h3, if_neg, if_false, ite_false,
            Except.ok.injEq] at h
          simp_all
  · rintro ⟨h1, h2, h3, rfl⟩
    have h1' : ¬ milestoneId ≥ s.milestones.length := by omega
    have h3' : ¬ now ≤ (mileAt s.milestones milestoneId).voteDeadline := by
      omega
    simp [finalizeMilestoneVote, h1', h2, h3']

theorem releaseMilestoneFunds_ok_iff (s : State) (now : Nat) (sender : Address)
    (milestoneId : Nat) (transferOk : Bool) (s' : State) :
    releaseMilestoneFunds s now sender milestoneId transferOk = .ok s' ↔
      sender = s.owner ∧ milestoneId < s.milestones.length ∧
      (mileAt s.milestones milestoneId).approved = true ∧
      (mileAt s.milestones milestoneId).fundsReleased = false ∧
      (mileAt s.milestones milestoneId).fundAmount ≤ s.balance ∧
      transferOk = true ∧
      s' = { s with
        milestones := s.milestones.set milestoneId
          { mileAt s.milestones milestoneId with fundsReleased := true },
        balance := s.balance - (mileAt s.milestones milestoneId).fundAmount,
        time := now } := by
  constructor
  · intro h
    by_cases h1 : sender = s.owner
    · by_cases h2 : milestoneId ≥ s.milestones.length
      · simp [releaseMilestoneFunds, h1, h2] at h
      · by_cases h3 : (mileAt s.milestones milestoneId).approved = false
        · simp [releaseMilestoneFunds, h1, h2, h3] at h
        · by_cases h4 : (mileAt s.milestones milestoneId).fundsReleased = true
          · simp [releaseMilestoneFunds, h1, h2, h3, h4] at h
          · by_cases h5 : s.balance < (mileAt s.milestones milestoneId).fundAmount
            · simp [releaseMilestoneFunds, h1, h2, h3, h4, h5] at h
            · by_cases h6 : transferOk = false
              · simp [releaseMilestoneFunds, h1, h2, h3, h4, h5, h6] at h
              · refine ⟨h1, by omega, by simpa using h3, by simpa using h4, by omega,
                  by simpa using h6, ?_⟩
                simp only [releaseMilestoneFunds, h1, h2, h3, h4, h5, h6, if_neg,
                  if_false, ite_false, Except.ok.injEq] at h
                simp_all
    · simp [releaseMilestoneFunds, h1] at h
  · rintro ⟨h1, h2, h3, h4, h5, h6, rfl⟩
    have h2' : ¬ milestoneId ≥ s.milestones.length := by omega
    have h5' : ¬ s.balance < (mileAt s.milestones milestoneId).fundAmount := by
      omega
    simp [releaseMilestoneFunds, h1, h2', h3, h4, h5', h6]

theorem postUpdate_ok_iff (s : State) (now : Nat) (sender : Address)
    (title contentHash : String) (s' : State) :
    postUpdate s now sender title contentHash = .ok s' ↔
      sender = s.owner ∧ title.length ≠ 0 ∧
      s' = { s with
        updates := s.updates ++
          [{ title := title, contentHash := contentHash, timestamp := now }],
        time := now } := by
  unfold postUpdate
  split
  · next h => simp_all
  · split
    · next h => simp_all
    · next h1 h2 =>
      constructor
      · intro h; cases h; exact ⟨by tauto, h2, rfl⟩
      · rintro ⟨-, -, rfl⟩; rfl

theorem withdraw_ok_iff (s : State) (now : Nat) (sender : Address) (transferOk : Bool)
    (s' : State) :
    withdraw s now sender transferOk = .ok s' ↔
      sender = s.owner ∧ (s.deadline ≤ now ∨ s.fundraisingGoal ≤ s.totalDonations) ∧
      s.balance ≠ 0 ∧ transferOk = true ∧
      s' = { s with balance := 0, time := now } := by
  unfold withdraw
  split
  · next h => simp_all
  · split
    · next h => simp_all
    · split
      · next h => simp_all
      · split
        · next h => simp_all
        · next h1 h2 h3 h4 =>
          constructor
          · intro h; cases h
            refine ⟨by tauto, by tauto, h3, by simpa using h4, rfl⟩
          · rintro ⟨-, -, -, -, rfl⟩; rfl

theorem refund_ok_iff (s : State) (now : Nat) (sender : Address) (transferOk : Bool)
    (s' : State) :
    refund s now sender transferOk = .ok s' ↔
      s.deadline ≤ now ∧ s.totalDonations < s.fundraisingGoal ∧
      lookupAmt s.donations sender ≠ 0 ∧ transferOk = true ∧
      s' = { s with
        donations := setAmt s.donations sender 0,
        totalDonations := s.totalDonations - lookupAmt s.donations sender,
        balance := s.balance - lookupAmt s.donations sender,
        time := now } := by
  constructor
  · intro h
    by_cases h1 : now ≥ s.deadline ∧ s.totalDonations < s.fundraisingGoal
    · by_cases h2 : lookupAmt s.donations sender = 0
      · simp [refund, h1, h2] at h
      · by_cases h3 : transferOk = false
        · simp [refund, h1, h2, h3] at h
        · refine ⟨h1.1, h1.2, h2, by simpa using h3, ?_⟩
          simp only [refund, h1, h2, h3, if_neg, if_false, ite_false, not_true_eq_false,
            Except.ok.injEq] at h
          simp_all
    · simp [refund, h1] at h
  · rintro ⟨h1, h2, h3, h4, rfl⟩
    have h1' : now ≥ s.deadline ∧ s.totalDonations < s.fundraisingGoal := ⟨h1, h2⟩
    simp [refund, h1', h3, h4]

theorem endCampaign_ok_iff (s : State) (now : Nat) (sender : Address) (s' : State) :
    endCampaign s now sender = .ok s' ↔
      sender = s.owner ∧ s' = { s with campaignActive := false, time := now } := by
  unfold endCampaign
  split
  · next h => simp_all
  · next h =>
    constructor
    · intro hh; cases hh; exact ⟨by tauto, rfl⟩
    · rintro ⟨-, rfl⟩; rfl

/-! ## Lemmas about milestone-list reads, writes and appends -/

theorem mileAt_cons_succ (a : Milestone) (t : List Milestone) (n : Nat) :
    mileAt (a :: t) (n + 1) = mileAt t n := by
  simp [mileAt, List.getD]

theorem mileAt_mem (l : List Milestone) (i : Nat) (h : i < l.length) :
    mileAt l i ∈ l := by
  induction l generalizing i with
  | nil => simp at h
  | cons a t ih =>
    cases i with
    | zero => simp [mileAt, List.getD]
    | succ n =>
      rw [mileAt_cons_succ]
      exact List.mem_cons_of_mem _ (ih n (by simpa using h))

theorem mileAt_set_self (l : List Milestone) (i : Nat) (m : Milestone)
    (h : i < l.length) : mileAt (l.set i m) i = m := by
  induction l generalizing i with
  | nil => simp at h
  | cons a t ih =>
    cases i with
    | zero => simp [mileAt, List.getD]
    | succ n =>
      rw [List.set_cons_succ, mileAt_cons_succ]
      exact ih n (by simpa using h)

theorem mileAt_set_ne (l : List Milestone) (i j : Nat) (m : Milestone)
    (h : i ≠ j) : mileAt (l.set i m) j = mileAt l j := by
  induction l generalizing i j with
  | nil => simp [List.set]
  | cons a t ih =>
    cases i with
    | zero =>
      cases j with
      | zero => exact absurd rfl h
      | succ n => simp [mileAt_cons_succ]
    | succ n =>
      cases j with
      | zero => simp [List.set_cons_succ, mileAt, List.getD]
      | succ k =>
        rw [List.set_cons_succ, mileAt_cons_succ, mileAt_cons_succ]
        exact ih n k (by omega)

theorem mileAt_append (l l2 : List Milestone) (i : Nat) (h : i < l.length) :
    mileAt (l ++ l2) i = mileAt l i := by
  induction l generalizing i with
  | nil => simp at h
  | cons a t ih =>
    cases i with
    | zero => simp [mileAt, List.getD]
    | succ n =>
      rw [List.cons_append, mileAt_cons_succ, mileAt_cons_succ]
      exact ih n (by simpa using h)

/-! ## The reachable-state invariant -/

/-- Invariants maintained by every committed call:
the ledger total matches the sum of the balance map, a released milestone is
approved, an approved milestone has left the voting phase, and a milestone out
of the voting phase was finalized strictly after its vote deadline. -/
def Inv (s : State) : Prop :=
  sumAmt s.donations = s.totalDonations ∧
  ∀ m ∈ s.milestones,
    (m.fundsReleased = true → m.approved = true) ∧
    (m.approved = true → m.votingActive = false) ∧
    (m.votingActive = false → m.voteDeadline < s.time)

theorem inv_deploy (now : Nat) (sender : Address) (goal durationDays : Nat)
    (s : State) (h : deploy now sender goal durationDays = some s) : Inv s := by
  unfold deploy at h
  split at h
  · cases h
  · split at h
    · cases h
    · cases h
      exact ⟨rfl, by simp⟩

theorem inv_execute (s : State) (now : Nat) (op : Op) (s' : State)
    (hInv : Inv s) (htime : s.time ≤ now) (h : execute s now op = .ok s') : Inv s' := by
  obtain ⟨hsum, hmile⟩ := hInv
  cases op with
  | donate sender value =>
    rw [execute, donate_ok_iff] at h
    obtain ⟨-, -, rfl⟩ := h
    refine ⟨?_, ?_⟩
    · have := sumAmt_setAmt s.donations sender (lookupAmt s.donations sender + value)
      simp only [] at *
      omega
    · intro m hm
      obtain ⟨c1, c2, c3⟩ := hmile m hm
      exact ⟨c1, c2, fun hv => lt_of_lt_of_le (c3 hv) htime⟩
  | createMilestone sender d fa vd =>
    rw [execute, createMilestone_ok_iff] at h
    obtain ⟨-, -, -, -, -, rfl⟩ := h
    refine ⟨hsum, ?_⟩
    intro m hm
    simp only [List.mem_append, List.mem_singleton] at hm
    rcases hm with hm | rfl
    · obtain ⟨c1, c2, c3⟩ := hmile m hm
      exact ⟨c1, c2, fun hv => lt_of_lt_of_le (c3 hv) htime⟩
    · exact ⟨by simp, by simp, by simp⟩
  | voteOnMilestone sender i a =>
    rw [execute, voteOnMilestone_ok_iff] at h
    obtain ⟨-, hi, hact, -, -, rfl⟩ := h
    refine ⟨hsum, ?_⟩
    intro m hm
    simp only [] at hm
    rcases List.mem_or_eq_of_mem_set hm with hm' | rfl
    · obtain ⟨c1, c2, c3⟩ := hmile m hm'
      exact ⟨c1, c2, fun hv => lt_of_lt_of_le (c3 hv) htime⟩
    · obtain ⟨c1, c2, c3⟩ := hmile _ (mileAt_mem s.milestones i hi)
      cases a <;>
        simp only [if_true, if_false, ite_true, ite_false, Bool.false_eq_true] <;>
        exact ⟨c1, c2, fun hv => lt_of_lt_of_le (c3 hv) htime⟩
  | finalizeMilestoneVote sender i =>
    rw [execute, finalizeMilestoneVote_ok_iff] at h
    obtain ⟨hi, hact, hdl, rfl⟩ := h
    refine ⟨hsum, ?_⟩
    intro m hm
    simp only [] at hm
    rcases List.mem_or_eq_of_mem_set hm with hm' | rfl
    · obtain ⟨c1, c2, c3⟩ := hmile m hm'
      exact ⟨c1, c2, fun hv => lt_of_lt_of_le (c3 hv) htime⟩
    · obtain ⟨c1, c2, c3⟩ := hmile _ (mileAt_mem s.milestones i hi)
      have hrel : (mileAt s.milestones i).fundsReleased = false := by
        cases hr : (mileAt s.milestones i).fundsReleased
        · rfl
        · have := c2 (c1 hr)
          rw [hact] at this
          cases this
      split <;> simp_all
  | releaseMilestoneFunds sender i ok =>
    rw [execute, releaseMilestoneFunds_ok_iff] at h
    obtain ⟨-, hi, happ, -, -, -, rfl⟩ := h
    refine ⟨hsum, ?_⟩
    intro m hm
    simp only [] at hm
    rcases List.mem_or_eq_of_mem_set hm with hm' | rfl
    · obtain ⟨c1, c2, c3⟩ := hmile m hm'
      exact ⟨c1, c2, fun hv => lt_of_lt_of_le (c3 hv) htime⟩
    · obtain ⟨c1, c2, c3⟩ := hmile _ (mileAt_mem s.milestones i hi)
      exact ⟨fun _ => happ, fun hv => c2 hv,
        fun hv => lt_of_lt_of_le (c3 hv) htime⟩
  | postUpdate sender t c =>
    rw [execute, postUpdate_ok_iff] at h
    obtain ⟨-, -, rfl⟩ := h
    refine ⟨hsum, ?_⟩
    intro m hm
    obtain ⟨c1, c2, c3⟩ := hmile m hm
    exact ⟨c1, c2, fun hv => lt_of_lt_of_le (c3 hv) htime⟩
  | withdraw sender ok =>
    rw [execute, withdraw_ok_iff] at h
    obtain ⟨-, -, -, -, rfl⟩ := h
    refine ⟨hsum, ?_⟩
    intro m hm
    obtain ⟨c1, c2, c3⟩ := hmile m hm
    exact ⟨c1, c2, fun hv => lt_of_lt_of_le (c3 hv) htime⟩
  | refund sender ok =>
    rw [execute, refund_ok_iff] at h
    obtain ⟨-, -, -, -, rfl⟩ := h
    refine ⟨?_, ?_⟩
    · have h1 := sumAmt_setAmt s.donations sender 0
      have h2 := lookupAmt_le_sumAmt s.donations sender
      simp only [] at *
      omega
    · intro m hm
      obtain ⟨c1, c2, c3⟩ := hmile m hm
      exact ⟨c1, c2, fun hv => lt_of_lt_of_le (c3 hv) htime⟩
  | endCampaign sender =>
    rw [execute, endCampaign_ok_iff] at h
    obtain ⟨-, rfl⟩ := h
    refine ⟨hsum, ?_⟩
    intro m hm
    obtain ⟨c1, c2, c3⟩ := hmile m hm
    exact ⟨c1, c2, fun hv => lt_of_lt_of_le (c3 hv) htime⟩

theorem reachable_inv (s : State) (h : Reachable s) : Inv s := by
  induction h with
  | deployed now sender goal durationDays s hdep => exact inv_deploy _ _ _ _ _ hdep
  | step s now op s' _ htime hstep ih => exact inv_execute s now op s' ih htime hstep

/-! ## Reachability of the sample run -/

theorem reachable_sample0 : Reachable sample0 :=
  Reachable.deployed 0 0 10 1 sample0 (by decide)

theorem reachable_sample1 : Reachable sample1 :=
  Reachable.step sample0 1 (.donate 7 10) sample1 reachable_sample0 (by decide) (by rfl)

theorem reachable_sample2 : Reachable sample2 :=
  Reachable.step sample1 2 (.createMilestone 0 "m" 3 1) sample2 reachable_sample1
    (by decide) (by rfl)

theorem reachable_sample3 : Reachable sample3 :=
  Reachable.step sample2 3 (.voteOnMilestone 7 0 true) sample3 reachable_sample2
    (by decide) (by rfl)

theorem reachable_sample4 : Reachable sample4 :=
  Reachable.step sample3 86403 (.finalizeMilestoneVote 9 0) sample4 reachable_sample3
    (by decide) (by rfl)

theorem reachable_sample5 : Reachable sample5 :=
  Reachable.step sample4 86404 (.releaseMilestoneFunds 0 0 true) sample5 reachable_sample4
    (by decide) (by rfl)

theorem reachable_sampleR0 : Reachable sampleR0 :=
  Reachable.deployed 0 0 100 1 sampleR0 (by decide)

theorem reachable_sampleR1 : Reachable sampleR1 :=
  Reachable.step sampleR0 1 (.donate 7 10) sampleR1 reachable_sampleR0 (by decide) (by rfl)

/-- Finalizing a milestone that has left the voting phase fails with
`VotingNotActive`, at any timestamp. -/
theorem finalize_inactive (s : State) (now i : Nat) (hi : i < s.milestones.length)
    (hact : (mileAt s.milestones i).votingActive = false) :
    finalizeMilestoneVote s now i = .error .VotingNotActive := by
  have h1 : ¬ i ≥ s.milestones.length := by omega
  simp [finalizeMilestoneVote, h1, hact]

/-- A step that leaves a boolean flag unchanged keeps a set flag set and
cannot newly set it. -/
theorem frame_mono {x y : Bool} (hxy : y = x) (P : Prop) :
    (x = true → y = true) ∧ (x = false → y = true → P) := by
  constructor
  · intro hx
    rw [hxy, hx]
  · intro h1 h2
    rw [hxy, h1] at h2
    cases h2

/-! ## The claims -/

/-- C1: for every reachable state of the contract (any sequence of donate,
createMilestone, voteOnMilestone, finalizeMilestoneVote, releaseMilestoneFunds,
postUpdate, withdraw, refund, endCampaign calls from the initial state), the
sum of all entries in the donor-balance map equals `totalDonations`
(the spec's `totalContributed`). -/
theorem C1_sum_balances_eq_total (s : State) (h : Reachable s) :
    sumAmt s.donations = s.totalDonations :=
  (reachable_inv s h).1

theorem C1_witness : sumAmt sample1.donations = sample1.totalDonations :=
  C1_sum_balances_eq_total sample1 reachable_sample1

/-- C7: `donate` (the spec's `contribute`) fails with `FundraisingClosed`
(the spec's `CampaignClosed`) at or after the deadline, fails with
`InvalidDonationAmount` (the spec's `ZeroAmount`) on a zero amount before the
deadline, and otherwise succeeds, adding the amount to the sender's balance
and to `totalDonations` while leaving every other donor's balance unchanged. -/
theorem C7_donate_spec (s : State) (now : Nat) (sender : Address) (value : Nat) :
    (s.deadline ≤ now → donate s now sender value = .error .FundraisingClosed) ∧
    (now < s.deadline → value = 0 →
      donate s now sender value = .error .InvalidDonationAmount) ∧
    (now < s.deadline → value ≠ 0 →
      ∃ s', donate s now sender value = .ok s' ∧
        lookupAmt s'.donations sender = lookupAmt s.donations sender + value ∧
        s'.totalDonations = s.totalDonations + value ∧
        ∀ d, d ≠ sender → lookupAmt s'.donations d = lookupAmt s.donations d) := by
  refine ⟨?_, ?_, ?_⟩
  · intro hd
    unfold donate
    rw [if_pos hd]
  · intro hd hv
    unfold donate
    rw [if_neg (by omega), if_pos hv]
  · intro hd hv
    refine ⟨_, (donate_ok_iff s now sender value _).mpr ⟨hd, hv, rfl⟩, ?_, rfl, ?_⟩
    · exact lookupAmt_setAmt_self s.donations sender _
    · intro d hne
      exact lookupAmt_setAmt_ne s.donations sender d _ (fun e => hne e.symm)

/-- C8: `withdraw` called by the owner fails with `WithdrawalNotAvailable`
when neither the deadline has passed nor the goal is met, fails with
`NoFundsToWithdraw` (the spec's `NothingToWithdraw`) on a zero held balance,
and otherwise (transfer succeeding) succeeds and transfers the entire current
held balance, leaving the held balance zero. -/
theorem C8_withdraw_spec (s : State) (now : Nat) (transferOk : Bool) :
    (¬ (s.deadline ≤ now ∨ s.fundraisingGoal ≤ s.totalDonations) →
      withdraw s now s.owner transferOk = .error .WithdrawalNotAvailable) ∧
    ((s.deadline ≤ now ∨ s.fundraisingGoal ≤ s.totalDonations) → s.balance = 0 →
      withdraw s now s.owner transferOk = .error .NoFundsToWithdraw) ∧
    ((s.deadline ≤ now ∨ s.fundraisingGoal ≤ s.totalDonations) → s.balance ≠ 0 →
      transferOk = true →
      withdraw s now s.owner transferOk = .ok { s with balance := 0, time := now }) := by
  refine ⟨?_, ?_, ?_⟩
  · intro hcond
    unfold withdraw
    rw [if_neg (by simp), if_pos (by tauto)]
  · intro hcond hbal
    unfold withdraw
    rw [if_neg (by simp), if_neg (by tauto), if_pos hbal]
  · intro hcond hbal hok
    exact (withdraw_ok_iff s now s.owner transferOk _).mpr ⟨rfl, hcond, hbal, hok, rfl⟩

/-- C9: `createMilestone` fails with `NotOwner` for a non-owner caller, with
`EmptyDescription` for a blank description, with `InvalidMilestoneAmount` (the
spec's `InvalidAmount`) when the amount is zero or exceeds the held balance,
and with `InvalidMilestone` (the error the contract raises where the spec says
`InvalidDuration`) when the voting duration is zero; on success it appends a
milestone in the voting phase with `voteDeadline = now + votingDurationDays
* 1 days`, zero tallies, and `fundsReleased = false`. -/
theorem C9_createMilestone_spec (s : State) (now : Nat) (sender : Address)
    (description : String) (fundAmount votingDurationDays : Nat) :
    (sender ≠ s.owner →
      createMilestone s now sender description fundAmount votingDurationDays =
        .error .NotOwner) ∧
    (sender = s.owner → description.length = 0 →
      createMilestone s now sender description fundAmount votingDurationDays =
        .error .EmptyDescription) ∧
    (sender = s.owner → description.length ≠ 0 →
      (fundAmount = 0 ∨ s.balance < fundAmount) →
      createMilestone s now sender description fundAmount votingDurationDays =
        .error .InvalidMilestoneAmount) ∧
    (sender = s.owner → description.length ≠ 0 → fundAmount ≠ 0 →
      fundAmount ≤ s.balance → votingDurationDays = 0 →
      createMilestone s now sender description fundAmount votingDurationDays =
        .error .InvalidMilestone) ∧
    (sender = s.owner → description.length ≠ 0 → fundAmount ≠ 0 →
      fundAmount ≤ s.balance → votingDurationDays ≠ 0 →
      createMilestone s now sender description fundAmount votingDurationDays =
        .ok { s with
          milestones := s.milestones ++
            [{ description := description, fundAmount := fundAmount,
               voteDeadline := now + votingDurationDays * 86400,
               yesVotes := 0, noVotes := 0,
               approved := false, fundsReleased := false, votingActive := true }],
          time := now }) := by
  refine ⟨?_, ?_, ?_, ?_, ?_⟩
  · intro hown
    unfold createMilestone
    rw [if_pos hown]
  · intro hown hdesc
    unfold createMilestone
    rw [if_neg (by simp [hown]), if_pos hdesc]
  · intro hown hdesc hamt
    unfold createMilestone
    rw [if_neg (by simp [hown]), if_neg hdesc, if_pos (by omega)]
  · intro hown hdesc hamt hle hdur
    unfold createMilestone
    rw [if_neg (by simp [hown]), if_neg hdesc, if_neg (by omega), if_pos hdur]
  · intro hown hdesc hamt hle hdur
    exact (createMilestone_ok_iff s now sender description fundAmount
      votingDurationDays _).mpr ⟨hown, hdesc, hamt, hle, hdur, rfl⟩

/-- C10: a successful `withdraw` changes no ledger, milestone, or vote state:
the donor-balance map, `totalDonations`, the milestone list, the vote records
and the update log are identical before and after, the campaign parameters are
untouched, only the held balance drops to zero, and the goal-progress reading
is unchanged. -/
theorem C10_withdraw_frame (s : State) (now : Nat) (sender : Address)
    (transferOk : Bool) (s' : State)
    (h : withdraw s now sender transferOk = .ok s') :
    s'.donations = s.donations ∧ s'.totalDonations = s.totalDonations ∧
    s'.milestones = s.milestones ∧ s'.hasVoted = s.hasVoted ∧
    s'.updates = s.updates ∧ s'.owner = s.owner ∧
    s'.fundraisingGoal = s.fundraisingGoal ∧ s'.deadline = s.deadline ∧
    s'.campaignActive = s.campaignActive ∧ s'.balance = 0 ∧
    progressPercentage s' = progressPercentage s := by
  obtain ⟨-, -, -, -, rfl⟩ := (withdraw_ok_iff s now sender transferOk s').mp h
  exact ⟨rfl, rfl, rfl, rfl, rfl, rfl, rfl, rfl, rfl, rfl, rfl⟩

theorem C10_witness :
    sample1w.donations = sample1.donations ∧
    sample1w.totalDonations = sample1.totalDonations ∧
    sample1w.milestones = sample1.milestones ∧ sample1w.hasVoted = sample1.hasVoted ∧
    sample1w.updates = sample1.updates ∧ sample1w.owner = sample1.owner ∧
    sample1w.fundraisingGoal = sample1.fundraisingGoal ∧
    sample1w.deadline = sample1.deadline ∧
    sample1w.campaignActive = sample1.campaignActive ∧ sample1w.balance = 0 ∧
    progressPercentage sample1w = progressPercentage sample1 :=
  C10_withdraw_frame sample1 5 0 true sample1w (by rfl)

/-- C4: on a reachable state, for a milestone still in the voting phase whose
vote deadline has passed, `finalizeMilestoneVote` succeeds, ends the voting
phase, and approves the milestone exactly when the yes weight strictly exceeds
the no weight; ties, `yesVotes ≤ noVotes`, and zero turnout all leave it
rejected (voting closed, not approved). -/
theorem C4_finalize_majority (s : State) (h : Reachable s) (now i : Nat)
    (hi : i < s.milestones.length)
    (hact : (mileAt s.milestones i).votingActive = true)
    (hdl : (mileAt s.milestones i).voteDeadline < now) :
    ∃ s', finalizeMilestoneVote s now i = .ok s' ∧
      (mileAt s'.milestones i).votingActive = false ∧
      ((mileAt s'.milestones i).approved = true ↔
        (mileAt s.milestones i).noVotes < (mileAt s.milestones i).yesVotes) := by
  have happ : (mileAt s.milestones i).approved = false := by
    obtain ⟨-, hmile⟩ := reachable_inv s h
    obtain ⟨-, c2, -⟩ := hmile _ (mileAt_mem s.milestones i hi)
    cases ha : (mileAt s.milestones i).approved
    · rfl
    · rw [c2 ha] at hact
      cases hact
  refine ⟨_, (finalizeMilestoneVote_ok_iff s now i _).mpr ⟨hi, hact, hdl, rfl⟩, ?_, ?_⟩
  · simp only [mileAt_set_self _ _ _ hi]
    split <;> rfl
  · simp only [mileAt_set_self _ _ _ hi]
    split
    · next hc => exact iff_of_true rfl hc.2
    · next hc =>
      refine iff_of_false (by simpa using happ) ?_
      intro hlt
      exact hc ⟨by omega, hlt⟩

theorem C4_witness :
    ∃ s', finalizeMilestoneVote sample3 86403 0 = .ok s' ∧
      (mileAt s'.milestones 0).votingActive = false ∧
      ((mileAt s'.milestones 0).approved = true ↔
        (mileAt sample3.milestones 0).noVotes < (mileAt sample3.milestones 0).yesVotes) :=
  C4_finalize_majority sample3 reachable_sample3 86403 0 (by decide) (by decide) (by decide)

/-- C5: `finalizeMilestoneVote` called at or before a milestone's vote
deadline on a reachable state (with a non-decreasing clock) always fails with
`VotingStillActive`; once the deadline has passed it succeeds on a milestone
still in the voting phase, closes the vote, and every later
`finalizeMilestoneVote` on that milestone fails with `VotingNotActive`. -/
theorem C5_finalize_timing (s : State) (h : Reachable s) (now i : Nat)
    (htime : s.time ≤ now) (hi : i < s.milestones.length) :
    (now ≤ (mileAt s.milestones i).voteDeadline →
      finalizeMilestoneVote s now i = .error .VotingStillActive) ∧
    ((mileAt s.milestones i).votingActive = true →
      (mileAt s.milestones i).voteDeadline < now →
      ∃ s', finalizeMilestoneVote s now i = .ok s' ∧
        (mileAt s'.milestones i).votingActive = false ∧
        ∀ now2, finalizeMilestoneVote s' now2 i = .error .VotingNotActive) := by
  constructor
  · intro hdl
    have hact : (mileAt s.milestones i).votingActive = true := by
      obtain ⟨-, hmile⟩ := reachable_inv s h
      obtain ⟨-, -, c3⟩ := hmile _ (mileAt_mem s.milestones i hi)
      cases hv : (mileAt s.milestones i).votingActive
      · have := c3 hv
        omega
      · rfl
    have h1' : ¬ i ≥ s.milestones.length := by omega
    simp [finalizeMilestoneVote, h1', hact, hdl]
  · intro hact hdl
    refine ⟨_, (finalizeMilestoneVote_ok_iff s now i _).mpr ⟨hi, hact, hdl, rfl⟩, ?_, ?_⟩
    · simp only [mileAt_set_self _ _ _ hi]
      split <;> rfl
    · intro now2
      have hlen : ¬ i ≥ (s.milestones.set i
          (if 0 < (mileAt s.milestones i).yesVotes + (mileAt s.milestones i).noVotes ∧
              (mileAt s.milestones i).noVotes < (mileAt s.milestones i).yesVotes
           then { mileAt s.milestones i with votingActive := false, approved := true }
           else { mileAt s.milestones i with votingActive := false })).length := by
        simp [List.length_set]
        omega
      have hmA : (mileAt (s.milestones.set i
          (if 0 < (mileAt s.milestones i).yesVotes + (mileAt s.milestones i).noVotes ∧
              (mileAt s.milestones i).noVotes < (mileAt s.milestones i).yesVotes
           then { mileAt s.milestones i with votingActive := false, approved := true }
           else { mileAt s.milestones i with votingActive := false })) i).votingActive
          = false := by
        rw [mileAt_set_self _ _ _ hi]
        split <;> rfl
      exact finalize_inactive _ now2 i (by simpa [List.length_set] using hi) hmA

theorem C5_witness :
    (86402 ≤ (mileAt sample3.milestones 0).voteDeadline →
      finalizeMilestoneVote sample3 86402 0 = .error .VotingStillActive) ∧
    ((mileAt sample3.milestones 0).votingActive = true →
      (mileAt sample3.milestones 0).voteDeadline < 86402 →
      ∃ s', finalizeMilestoneVote sample3 86402 0 = .ok s' ∧
        (mileAt s'.milestones 0).votingActive = false ∧
        ∀ now2, finalizeMilestoneVote s' now2 0 = .error .VotingNotActive) :=
  C5_finalize_timing sample3 reachable_sample3 86402 0 (by decide) (by decide)

/-- C6: on a reachable state, `refund` fails with `RefundNotAvailable` (the
spec's `RefundUnavailable`) unless the deadline has passed and the goal is
unmet, fails with `NoDonationToRefund` (the spec's `NothingToRefund`) when the
caller's balance is zero, reverts with `TransferFailed` (pre-call state
preserved: in this embedding an error never produces a new state) when the
transfer fails, and otherwise succeeds, zeroing the caller's balance and
decrementing `totalDonations` by exactly that balance while leaving every
other donor's balance unchanged. -/
theorem C6_refund_spec (s : State) (h : Reachable s) (now : Nat) (sender : Address)
    (transferOk : Bool) :
    (¬ (s.deadline ≤ now ∧ s.totalDonations < s.fundraisingGoal) →
      refund s now sender transferOk = .error .RefundNotAvailable) ∧
    (s.deadline ≤ now → s.totalDonations < s.fundraisingGoal →
      lookupAmt s.donations sender = 0 →
      refund s now sender transferOk = .error .NoDonationToRefund) ∧
    (s.deadline ≤ now → s.totalDonations < s.fundraisingGoal →
      lookupAmt s.donations sender ≠ 0 → transferOk = false →
      refund s now sender transferOk = .error .TransferFailed) ∧
    (s.deadline ≤ now → s.totalDonations < s.fundraisingGoal →
      lookupAmt s.donations sender ≠ 0 → transferOk = true →
      ∃ s', refund s now sender transferOk = .ok s' ∧
        lookupAmt s'.donations sender = 0 ∧
        s'.totalDonations + lookupAmt s.donations sender = s.totalDonations ∧
        ∀ d, d ≠ sender → lookupAmt s'.donations d = lookupAmt s.donations d) := by
  refine ⟨?_, ?_, ?_, ?_⟩
  · intro hcond
    have hcond' : ¬ (now ≥ s.deadline ∧ s.totalDonations < s.fundraisingGoal) := hcond
    simp [refund, hcond']
  · intro h1 h2 hlook
    have hcond : now ≥ s.deadline ∧ s.totalDonations < s.fundraisingGoal := ⟨h1, h2⟩
    simp [refund, hcond, hlook]
  · intro h1 h2 hlook htok
    have hcond : now ≥ s.deadline ∧ s.totalDonations < s.fundraisingGoal := ⟨h1, h2⟩
    simp [refund, hcond, hlook, htok]
  · intro h1 h2 hlook htok
    refine ⟨_, (refund_ok_iff s now sender transferOk _).mpr ⟨h1, h2, hlook, htok, rfl⟩,
      ?_, ?_, ?_⟩
    · exact lookupAmt_setAmt_self s.donations sender 0
    · have hsum := (reachable_inv s h).1
      have hle := lookupAmt_le_sumAmt s.donations sender
      simp only []
      omega
    · intro d hne
      exact lookupAmt_setAmt_ne s.donations sender d 0 (fun e => hne e.symm)

theorem C6_witness :
    (¬ (sampleR1.deadline ≤ 86400 ∧ sampleR1.totalDonations < sampleR1.fundraisingGoal) →
      refund sampleR1 86400 7 true = .error .RefundNotAvailable) ∧
    (sampleR1.deadline ≤ 86400 → sampleR1.totalDonations < sampleR1.fundraisingGoal →
      lookupAmt sampleR1.donations 7 = 0 →
      refund sampleR1 86400 7 true = .error .NoDonationToRefund) ∧
    (sampleR1.deadline ≤ 86400 → sampleR1.totalDonations < sampleR1.fundraisingGoal →
      lookupAmt sampleR1.donations 7 ≠ 0 → true = false →
      refund sampleR1 86400 7 true = .error .TransferFailed) ∧
    (sampleR1.deadline ≤ 86400 → sampleR1.totalDonations < sampleR1.fundraisingGoal →
      lookupAmt sampleR1.donations 7 ≠ 0 → true = true →
      ∃ s', refund sampleR1 86400 7 true = .ok s' ∧
        lookupAmt s'.donations 7 = 0 ∧
        s'.totalDonations + lookupAmt sampleR1.donations 7 = sampleR1.totalDonations ∧
        ∀ d, d ≠ 7 → lookupAmt s'.donations d = lookupAmt sampleR1.donations d) :=
  C6_refund_spec sampleR1 reachable_sampleR1 86400 7 true

/-- C2: on a reachable state, a milestone's `fundsReleased` flag is monotonic
across any committed operation (once `true` it stays `true`), it can become
`true` only through a successful `releaseMilestoneFunds` by the owner on a
milestone in the approved phase (`approved = true`, voting closed), and on an
already-released milestone an owner call to `releaseMilestoneFunds` always
fails with `FundsAlreadyReleased` (the spec's `AlreadyReleased`). -/
theorem C2_released_monotonic (s : State) (h : Reachable s) (now : Nat) (op : Op)
    (s' : State) (hstep : execute s now op = .ok s') (i : Nat)
    (hi : i < s.milestones.length) :
    ((mileAt s.milestones i).fundsReleased = true →
      (mileAt s'.milestones i).fundsReleased = true) ∧
    ((mileAt s.milestones i).fundsReleased = false →
      (mileAt s'.milestones i).fundsReleased = true →
      (mileAt s.milestones i).approved = true ∧
      (mileAt s.milestones i).votingActive = false ∧
      op = Op.releaseMilestoneFunds s.owner i true) ∧
    ((mileAt s.milestones i).fundsReleased = true → ∀ transferOk,
      releaseMilestoneFunds s now s.owner i transferOk =
        .error .FundsAlreadyReleased) := by
  obtain ⟨-, hmile⟩ := reachable_inv s h
  obtain ⟨c1, c2, -⟩ := hmile _ (mileAt_mem s.milestones i hi)
  have h12 :
      ((mileAt s.milestones i).fundsReleased = true →
        (mileAt s'.milestones i).fundsReleased = true) ∧
      ((mileAt s.milestones i).fundsReleased = false →
        (mileAt s'.milestones i).fundsReleased = true →
        (mileAt s.milestones i).approved = true ∧
        (mileAt s.milestones i).votingActive = false ∧
        op = Op.releaseMilestoneFunds s.owner i true) := by
    cases op with
    | donate sender value =>
      rw [execute, donate_ok_iff] at hstep
      obtain ⟨-, -, rfl⟩ := hstep
      exact frame_mono rfl _
    | createMilestone sender d fa vd =>
      rw [execute, createMilestone_ok_iff] at hstep
      obtain ⟨-, -, -, -, -, rfl⟩ := hstep
      exact frame_mono (by simp only [mileAt_append _ _ _ hi]) _
    | voteOnMilestone sender j a =>
      rw [execute, voteOnMilestone_ok_iff] at hstep
      obtain ⟨-, hj, -, -, -, rfl⟩ := hstep
      by_cases hji : j = i
      · subst hji
        refine frame_mono ?_ _
        simp only [mileAt_set_self _ _ _ hi]
        split <;> rfl
      · exact frame_mono (by simp only [mileAt_set_ne _ _ _ _ hji]) _
    | finalizeMilestoneVote sender j =>
      rw [execute, finalizeMilestoneVote_ok_iff] at hstep
      obtain ⟨hj, -, -, rfl⟩ := hstep
      by_cases hji : j = i
      · subst hji
        refine frame_mono ?_ _
        simp only [mileAt_set_self _ _ _ hi]
        split <;> rfl
      · exact frame_mono (by simp only [mileAt_set_ne _ _ _ _ hji]) _
    | releaseMilestoneFunds sender j tOk =>
      rw [execute, releaseMilestoneFunds_ok_iff] at hstep
      obtain ⟨hsender, hj, happ, hrel, -, htok, rfl⟩ := hstep
      by_cases hji : j = i
      · subst hji
        constructor
        · intro hrl
          rw [hrl] at hrel
          cases hrel
        · intro h1 h2
          exact ⟨happ, c2 happ, by rw [hsender, htok]⟩
      · exact frame_mono (by simp only [mileAt_set_ne _ _ _ _ hji]) _
    | postUpdate sender t c =>
      rw [execute, postUpdate_ok_iff] at hstep
      obtain ⟨-, -, rfl⟩ := hstep
      exact frame_mono rfl _
    | withdraw sender tOk =>
      rw [execute, withdraw_ok_iff] at hstep
      obtain ⟨-, -, -, -, rfl⟩ := hstep
      exact frame_mono rfl _
    | refund sender tOk =>
      rw [execute, refund_ok_iff] at hstep
      obtain ⟨-, -, -, -, rfl⟩ := hstep
      exact frame_mono rfl _
    | endCampaign sender =>
      rw [execute, endCampaign_ok_iff] at hstep
      obtain ⟨-, rfl⟩ := hstep
      exact frame_mono rfl _
  refine ⟨h12.1, h12.2, ?_⟩
  intro hrel transferOk
  have happ : (mileAt s.milestones i).approved = true := c1 hrel
  have hown : ¬ (s.owner ≠ s.owner) := fun hc => hc rfl
  have hlen : ¬ i ≥ s.milestones.length := by omega
  simp [releaseMilestoneFunds, hown, hlen, happ, hrel]

theorem C2_witness :
    ((mileAt sample5.milestones 0).fundsReleased = true →
      (mileAt sample6.milestones 0).fundsReleased = true) ∧
    ((mileAt sample5.milestones 0).fundsReleased = false →
      (mileAt sample6.milestones 0).fundsReleased = true →
      (mileAt sample5.milestones 0).approved = true ∧
      (mileAt sample5.milestones 0).votingActive = false ∧
      Op.postUpdate 0 "t" "c" = Op.releaseMilestoneFunds sample5.owner 0 true) ∧
    ((mileAt sample5.milestones 0).fundsReleased = true → ∀ transferOk,
      releaseMilestoneFunds sample5 86405 sample5.owner 0 transferOk =
        .error .FundsAlreadyReleased) :=
  C2_released_monotonic sample5 reachable_sample5 86405 (.postUpdate 0 "t" "c")
    sample6 (by rfl) 0 (by decide)

/-- C3: on a reachable state, a recorded vote pair `(milestoneIndex, donor)`
is never cleared by any committed operation, no further `voteOnMilestone` by
that donor on that index can ever succeed (so the pair's weight is tallied at
most once), and when the earlier donor/index/voting-window checks pass the
repeated call fails precisely with `AlreadyVoted` (a revert, leaving the
tallies unchanged since an error commits no state). -/
theorem C3_vote_once (s : State) (h : Reachable s) (i : Nat) (d : Address)
    (hv : (i, d) ∈ s.hasVoted) :
    (∀ now op s', execute s now op = .ok s' → (i, d) ∈ s'.hasVoted) ∧
    (∀ now b s', voteOnMilestone s now d i b ≠ .ok s') ∧
    (∀ now b, lookupAmt s.donations d ≠ 0 → i < s.milestones.length →
      (mileAt s.milestones i).votingActive = true →
      now ≤ (mileAt s.milestones i).voteDeadline →
      voteOnMilestone s now d i b = .error .AlreadyVoted) := by
  refine ⟨?_, ?_, ?_⟩
  · intro now op s' hstep
    cases op with
    | donate sender value =>
      rw [execute, donate_ok_iff] at hstep
      obtain ⟨-, -, rfl⟩ := hstep
      exact hv
    | createMilestone sender de fa vd =>
      rw [execute, createMilestone_ok_iff] at hstep
      obtain ⟨-, -, -, -, -, rfl⟩ := hstep
      exact hv
    | voteOnMilestone sender j a =>
      rw [execute, voteOnMilestone_ok_iff] at hstep
      obtain ⟨-, -, -, -, -, rfl⟩ := hstep
      exact List.mem_cons_of_mem _ hv
    | finalizeMilestoneVote sender j =>
      rw [execute, finalizeMilestoneVote_ok_iff] at hstep
      obtain ⟨-, -, -, rfl⟩ := hstep
      exact hv
    | releaseMilestoneFunds sender j tOk =>
      rw [execute, releaseMilestoneFunds_ok_iff] at hstep
      obtain ⟨-, -, -, -, -, -, rfl⟩ := hstep
      exact hv
    | postUpdate sender t c =>
      rw [execute, postUpdate_ok_iff] at hstep
      obtain ⟨-, -, rfl⟩ := hstep
      exact hv
    | withdraw sender tOk =>
      rw [execute, withdraw_ok_iff] at hstep
      obtain ⟨-, -, -, -, rfl⟩ := hstep
      exact hv
    | refund sender tOk =>
      rw [execute, refund_ok_iff] at hstep
      obtain ⟨-, -, -, -, rfl⟩ := hstep
      exact hv
    | endCampaign sender =>
      rw [execute, endCampaign_ok_iff] at hstep
      obtain ⟨-, rfl⟩ := hstep
      exact hv
  · intro now b s' hok
    obtain ⟨-, -, -, -, hnot, -⟩ := (voteOnMilestone_ok_iff s now d i b s').mp hok
    exact hnot hv
  · intro now b hlook hilen hact hdl
    have hlen' : ¬ i ≥ s.milestones.length := by omega
    have hdl' : ¬ now > (mileAt s.milestones i).voteDeadline := by omega
    simp [voteOnMilestone, hlook, hlen', hact, hdl', hv]

theorem C3_witness :
    (∀ now op s', execute sample3 now op = .ok s' → (0, 7) ∈ s'.hasVoted) ∧
    (∀ now b s', voteOnMilestone sample3 now 7 0 b ≠ .ok s') ∧
    (∀ now b, lookupAmt sample3.donations 7 ≠ 0 → 0 < sample3.milestones.length →
      (mileAt sample3.milestones 0).votingActive = true →
      now ≤ (mileAt sample3.milestones 0).voteDeadline →
      voteOnMilestone sample3 now 7 0 b = .error .AlreadyVoted) :=
  C3_vote_once sample3 reachable_sample3 0 7 (by decide)

theorem C7_witness :
    (sample0.deadline ≤ 1 → donate sample0 1 7 10 = .error .FundraisingClosed) ∧
    (1 < sample0.deadline → 10 = 0 →
      donate sample0 1 7 10 = .error .InvalidDonationAmount) ∧
    (1 < sample0.deadline → 10 ≠ 0 →
      ∃ s', donate sample0 1 7 10 = .ok s' ∧
        lookupAmt s'.donations 7 = lookupAmt sample0.donations 7 + 10 ∧
        s'.totalDonations = sample0.totalDonations + 10 ∧
        ∀ d, d ≠ 7 → lookupAmt s'.donations d = lookupAmt sample0.donations d) :=
  C7_donate_spec sample0 1 7 10

theorem C8_witness :
    (¬ (sample1.deadline ≤ 5 ∨ sample1.fundraisingGoal ≤ sample1.totalDonations) →
      withdraw sample1 5 sample1.owner true = .error .WithdrawalNotAvailable) ∧
    ((sample1.deadline ≤ 5 ∨ sample1.fundraisingGoal ≤ sample1.totalDonations) →
      sample1.balance = 0 →
      withdraw sample1 5 sample1.owner true = .error .NoFundsToWithdraw) ∧
    ((sample1.deadline ≤ 5 ∨ sample1.fundraisingGoal ≤ sample1.totalDonations) →
      sample1.balance ≠ 0 → true = true →
      withdraw sample1 5 sample1.owner true =
        .ok { sample1 with balance := 0, time := 5 }) :=
  C8_withdraw_spec sample1 5 true

theorem C9_witness :
    (0 ≠ sample1.owner →
      createMilestone sample1 2 0 "m" 3 1 = .error .NotOwner) ∧
    (0 = sample1.owner → "m".length = 0 →
      createMilestone sample1 2 0 "m" 3 1 = .error .EmptyDescription) ∧
    (0 = sample1.owner → "m".length ≠ 0 → (3 = 0 ∨ sample1.balance < 3) →
      createMilestone sample1 2 0 "m" 3 1 = .error .InvalidMilestoneAmount) ∧
    (0 = sample1.owner → "m".length ≠ 0 → 3 ≠ 0 → 3 ≤ sample1.balance → 1 = 0 →
      createMilestone sample1 2 0 "m" 3 1 = .error .InvalidMilestone) ∧
    (0 = sample1.owner → "m".length ≠ 0 → 3 ≠ 0 → 3 ≤ sample1.balance → 1 ≠ 0 →
      createMilestone sample1 2 0 "m" 3 1 =
        .ok { sample1 with
          milestones := sample1.milestones ++
            [{ description := "m", fundAmount := 3,
               voteDeadline := 2 + 1 * 86400,
               yesVotes := 0, noVotes := 0,
               approved := false, fundsReleased := false, votingActive := true }],
          time := 2 }) :=
  C9_createMilestone_spec sample1 2 0 "m" 3 1

end PhilanChain
